import Mathlib

/-!
Shallow embedding of `src/plugin.rs` of `bevy_prototype_lyon`: the vertex
construction contract, the tessellation dispatch system
`complete_shape_bundle`, and mesh assembly `build_mesh`.

Modelling conventions:
* `f32` coordinates are modelled as exact rationals: the pipeline only copies
  coordinate values (vertex construction, attribute projection); it performs
  no floating-point arithmetic on them.
* The external lyon tessellators (`FillTessellator`, `StrokeTessellator`) are
  modelled as stateful run functions supplied as parameters: each call
  consumes the engine state, a path and options, and yields a new engine
  state together with the raw points/indices it emits into the supplied
  `BuffersBuilder` and an optional `TessellationError` (on error the partial
  output already emitted stays in the buffer, as with lyon builders).
* Bevy's `Assets<Mesh>` storage is a list of meshes; `add` appends and hands
  back the index as the opaque `Handle<Mesh>`.
* `error!` logging is modelled as appending a structured event to a log list;
  the two events mirror the two format strings
  `"FillTessellator error: {:?}"` and `"StrokeTessellator error: {:?}"`.
-/

/-- `f32` coordinate values, modelled as exact rationals (copied, never
computed with). -/
abbrev f32 := ℚ

/-- The index type of a Bevy `Mesh` (`type IndexType = u32` in the source).
Indices are only ever copied verbatim in this pipeline, so they are modelled
as naturals. -/
abbrev IndexType := ℕ

/-- A vertex with all the attributes inserted into a Bevy `Mesh`
(`struct Vertex` in the source: `position: [f32; 3]`, `normal: [f32; 3]`,
`uv: [f32; 2]`). -/
structure Vertex where
  position : f32 × f32 × f32
  normal : f32 × f32 × f32
  uv : f32 × f32
deriving DecidableEq, Repr

/-- Lyon's `VertexBuffers<Vertex, IndexType>`: a vertex sequence and an index
sequence. -/
structure VertexBuffers where
  vertices : List Vertex
  indices : List IndexType
deriving DecidableEq, Repr

/-- `VertexBuffers::new()`: the freshly created, empty buffer pair. -/
def VertexBuffers.new : VertexBuffers := ⟨[], []⟩

/-- A 2D point of the external lyon geometry library (what
`vertex.position()` returns). -/
structure Point2 where
  x : f32
  y : f32
deriving DecidableEq, Repr

/-- Lyon's `FillVertex`: the datum handed to a fill vertex constructor; the
pipeline only reads its `position()`. -/
structure FillVertex where
  position : Point2
deriving DecidableEq, Repr

/-- Lyon's `StrokeVertex`: the datum handed to a stroke vertex constructor;
the pipeline only reads its `position()`. -/
structure StrokeVertex where
  position : Point2
deriving DecidableEq, Repr

/-- `impl FillVertexConstructor<Vertex> for VertexConstructor`: build a
`Vertex` from a fill point. -/
def FillVertexConstructor.new_vertex (vertex : FillVertex) : Vertex :=
  { position := (vertex.position.x, vertex.position.y, 0)
    normal := (0, 0, 1)
    uv := (0, 0) }

/-- `impl StrokeVertexConstructor<Vertex> for VertexConstructor`: build a
`Vertex` from a stroke point. -/
def StrokeVertexConstructor.new_vertex (vertex : StrokeVertex) : Vertex :=
  { position := (vertex.position.x, vertex.position.y, 0)
    normal := (0, 0, 1)
    uv := (0, 0) }

/-- Bevy's `PrimitiveTopology` (the variants of the external enum). -/
inductive PrimitiveTopology where
  | PointList
  | LineList
  | LineStrip
  | TriangleList
  | TriangleStrip
deriving DecidableEq, Repr

/-- Bevy's `Indices` as used here (`Indices::U32`). -/
inductive Indices where
  | U32 (idxs : List IndexType)
deriving DecidableEq, Repr

/-- A Bevy `Mesh`, modelled by the parts this pipeline sets: topology, the
optional index array, and the three attribute arrays
(`ATTRIBUTE_POSITION`, `ATTRIBUTE_NORMAL`, `ATTRIBUTE_UV_0`). -/
structure Mesh where
  primitive_topology : PrimitiveTopology
  indices : Option Indices
  attribute_position : List (f32 × f32 × f32)
  attribute_normal : List (f32 × f32 × f32)
  attribute_uv : List (f32 × f32)
deriving DecidableEq, Repr

/-- `Mesh::new(topology)`: a mesh with no indices and no attributes. -/
def Mesh.new (t : PrimitiveTopology) : Mesh :=
  { primitive_topology := t
    indices := none
    attribute_position := []
    attribute_normal := []
    attribute_uv := [] }

/-- `fn build_mesh(buffers: &VertexBuffers) -> Mesh` from the source:
triangle-list topology, the index sequence copied verbatim, and the vertex
sequence projected into the three parallel attribute arrays. -/
def build_mesh (buffers : VertexBuffers) : Mesh :=
  let mesh := Mesh.new PrimitiveTopology.TriangleList
  let mesh := { mesh with indices := some (Indices.U32 buffers.indices) }
  let mesh := { mesh with
    attribute_position := buffers.vertices.map Vertex.position }
  let mesh := { mesh with
    attribute_normal := buffers.vertices.map Vertex.normal }
  let mesh := { mesh with
    attribute_uv := buffers.vertices.map Vertex.uv }
  mesh

/-- Bevy's `Assets<Mesh>` storage: a list of meshes; a `Handle<Mesh>` is the
index of a mesh in the list. -/
structure Assets where
  store : List Mesh
deriving DecidableEq, Repr

/-- `Assets::add`: register a mesh and hand back the fresh handle. -/
def Assets.add (self : Assets) (m : Mesh) : Assets × ℕ :=
  (⟨self.store ++ [m]⟩, self.store.length)

/-- Modelled from the spec: `TessellationMode` (from `crate::utils`, not in
the provided sources) is "a tagged variant with two cases — `Fill(FillOptions)`
or `Stroke(StrokeOptions)`"; the options are opaque style parameters passed
through unmodified, so they are type parameters here. -/
inductive TessellationMode (FO SO : Type) where
  | Fill (options : FO)
  | Stroke (options : SO)
deriving DecidableEq, Repr

/-- Modelled from the spec: `Processed` (from `crate::entity`, not in the
provided sources) is "a boolean owned by the entity, initially false"; the
source pattern-matches it as the newtype `Processed(bool)`. -/
structure Processed where
  fst : Bool
deriving DecidableEq, Repr

/-- Bevy's `Visible` component, modelled by the one field this pipeline
touches (`visible.is_visible = true`). -/
structure Visible where
  is_visible : Bool
deriving DecidableEq, Repr

/-- One entity as matched by the system's query: its `TessellationMode`,
its `Path` (opaque parameter `P`: paths are read and passed through
unmodified), and the three mutable components `Handle<Mesh>`, `Visible`,
`Processed`. -/
structure ShapeEntity (P FO SO : Type) where
  tess_mode : TessellationMode FO SO
  path : P
  mesh : ℕ
  visible : Visible
  processed : Processed
deriving DecidableEq, Repr

/-- What one tessellator call emits into the supplied builder: raw points,
raw indices (relative to the start of this call's output), and the optional
`TessellationError`.  On `some` error the partial output already emitted
stays, as with lyon builders. -/
structure TessOutput (V E : Type) where
  points : List V
  raw_indices : List IndexType
  err : Option E
deriving DecidableEq, Repr

/-- The external, stateful lyon `FillTessellator`, as the behaviour of its
`tessellate_path(path, options, builder)` method: engine state in, new
engine state plus emitted output out. -/
abbrev FillRun (σf P FO E : Type) := σf → P → FO → σf × TessOutput FillVertex E

/-- The external, stateful lyon `StrokeTessellator`, as the behaviour of its
`tessellate_path(path, options, builder)` method. -/
abbrev StrokeRun (σs P SO E : Type) := σs → P → SO → σs × TessOutput StrokeVertex E

/-- Modelled from the spec: lyon's `BuffersBuilder::new(&mut buffers,
VertexConstructor)` (external library) appends the constructed vertices to
the supplied buffer and appends the raw indices offset by the vertex count
the buffer held when the builder was created.  Fill flavour: the points go
through `FillVertexConstructor.new_vertex`. -/
def BuffersBuilder.append_fill {E : Type} (buffers : VertexBuffers)
    (out : TessOutput FillVertex E) : VertexBuffers :=
  { vertices := buffers.vertices ++ out.points.map FillVertexConstructor.new_vertex
    indices := buffers.indices ++ out.raw_indices.map (· + buffers.vertices.length) }

/-- Modelled from the spec: stroke flavour of the lyon buffers builder; the
points go through `StrokeVertexConstructor.new_vertex`. -/
def BuffersBuilder.append_stroke {E : Type} (buffers : VertexBuffers)
    (out : TessOutput StrokeVertex E) : VertexBuffers :=
  { vertices := buffers.vertices ++ out.points.map StrokeVertexConstructor.new_vertex
    indices := buffers.indices ++ out.raw_indices.map (· + buffers.vertices.length) }

/-- One diagnostic event of the `error!` channel; the two constructors mirror
the two format strings `"FillTessellator error: {:?}"` and
`"StrokeTessellator error: {:?}"`, so an event identifies the failing engine
kind. -/
inductive LogEvent (E : Type) where
  | fillTessellatorError (e : E)
  | strokeTessellatorError (e : E)
deriving DecidableEq, Repr

/-- One engine invocation, recorded with the arguments the dispatch passes
(the entity's path and the mode's options); instrumentation of the two
`tessellate_path` call sites. -/
inductive EngineCall (P FO SO : Type) where
  | fill (path : P) (options : FO)
  | stroke (path : P) (options : SO)
deriving DecidableEq, Repr

/-- The shared resources of the system: `ResMut<Assets<Mesh>>`, the two
engine states (`ResMut<FillTessellator>`, `ResMut<StrokeTessellator>`), and
the diagnostic log. -/
structure SysState (σf σs E : Type) where
  meshes : Assets
  fill_tess : σf
  stroke_tess : σs
  log : List (LogEvent E)
deriving DecidableEq, Repr

/-- The body of the `for` loop of `complete_shape_bundle` for one queried
entity: skip if processed; otherwise create a fresh buffer pair, route on
the mode to the matching engine, log any error, then unconditionally
register `build_mesh(&buffers)`, write the fresh handle, set visibility and
set the processed flag.  Also returns the engine calls made (instrumentation;
`[]` when skipped). -/
def process_entity {P FO SO σf σs E : Type}
    (fillRun : FillRun σf P FO E) (strokeRun : StrokeRun σs P SO E)
    (st : SysState σf σs E) (e : ShapeEntity P FO SO) :
    SysState σf σs E × ShapeEntity P FO SO × List (EngineCall P FO SO) :=
  if e.processed.fst then (st, e, [])
  else
    match e.tess_mode with
    | TessellationMode.Fill options =>
      let r := fillRun st.fill_tess e.path options
      let buffers := BuffersBuilder.append_fill VertexBuffers.new r.2
      let log := match r.2.err with
        | some er => st.log ++ [LogEvent.fillTessellatorError er]
        | none => st.log
      let a := Assets.add st.meshes (build_mesh buffers)
      ({ meshes := a.1, fill_tess := r.1, stroke_tess := st.stroke_tess, log := log },
       { e with mesh := a.2, visible := ⟨true⟩, processed := ⟨true⟩ },
       [EngineCall.fill e.path options])
    | TessellationMode.Stroke options =>
      let r := strokeRun st.stroke_tess e.path options
      let buffers := BuffersBuilder.append_stroke VertexBuffers.new r.2
      let log := match r.2.err with
        | some er => st.log ++ [LogEvent.strokeTessellatorError er]
        | none => st.log
      let a := Assets.add st.meshes (build_mesh buffers)
      ({ meshes := a.1, fill_tess := st.fill_tess, stroke_tess := r.1, log := log },
       { e with mesh := a.2, visible := ⟨true⟩, processed := ⟨true⟩ },
       [EngineCall.stroke e.path options])

/-- `fn complete_shape_bundle(...)`: one run of the system, iterating the
query results in order and threading the shared resources; returns the final
resources, the updated entities (same order) and the concatenated engine-call
trace. -/
def complete_shape_bundle {P FO SO σf σs E : Type}
    (fillRun : FillRun σf P FO E) (strokeRun : StrokeRun σs P SO E)
    (st : SysState σf σs E) :
    List (ShapeEntity P FO SO) →
      SysState σf σs E × List (ShapeEntity P FO SO) × List (EngineCall P FO SO)
  | [] => (st, [], [])
  | e :: es =>
    let r := process_entity fillRun strokeRun st e
    let rest := complete_shape_bundle fillRun strokeRun r.1 es
    (rest.1, r.2.1 :: rest.2.1, r.2.2 ++ rest.2.2)

/-- Concrete test fixture: a fill engine behaviour that emits nothing and
fails with error code 7 (path, options, state and error type all `ℕ`). -/
def failingFillRun : FillRun ℕ ℕ ℕ ℕ := fun s _ _ => (s, ⟨[], [], some 7⟩)

/-- Concrete test fixture: a fill engine behaviour that emits one point and
one degenerate triangle and succeeds. -/
def okFillRun : FillRun ℕ ℕ ℕ ℕ := fun s _ _ => (s + 1, ⟨[⟨⟨1, 2⟩⟩], [0, 0, 0], none⟩)

/-- Concrete test fixture: a stroke engine behaviour that emits two points
and fails with error code 9. -/
def failingStrokeRun : StrokeRun ℕ ℕ ℕ ℕ :=
  fun s _ _ => (s + 1, ⟨[⟨⟨3, 4⟩⟩, ⟨⟨5, 6⟩⟩], [0, 1], some 9⟩)

/-- Concrete test fixture: a stroke engine behaviour that emits three points
and one triangle and succeeds. -/
def okStrokeRun : StrokeRun ℕ ℕ ℕ ℕ :=
  fun s _ _ => (s + 1, ⟨[⟨⟨3, 4⟩⟩, ⟨⟨5, 6⟩⟩, ⟨⟨7, 8⟩⟩], [0, 1, 2], none⟩)

/-- Concrete test fixture: initial shared resources (empty store, empty log). -/
def st0 : SysState ℕ ℕ ℕ := ⟨⟨[]⟩, 0, 0, []⟩

/-- Concrete test fixture: an unprocessed, invisible fill-mode entity with a
stale handle 99. -/
def fillEntity : ShapeEntity ℕ ℕ ℕ := ⟨TessellationMode.Fill 0, 5, 99, ⟨false⟩, ⟨false⟩⟩

/-- Concrete test fixture: an unprocessed, invisible stroke-mode entity with
a stale handle 99. -/
def strokeEntity : ShapeEntity ℕ ℕ ℕ := ⟨TessellationMode.Stroke 2, 6, 99, ⟨false⟩, ⟨false⟩⟩

/-- Concrete test fixture: an already-processed entity. -/
def doneEntity : ShapeEntity ℕ ℕ ℕ := ⟨TessellationMode.Fill 1, 7, 3, ⟨true⟩, ⟨true⟩⟩

variable {P FO SO σf σs E : Type}

/-- Characterization of the loop body when the processed flag is set: the
entity is skipped entirely (no resource change, no engine call). -/
lemma process_entity_skip (f : FillRun σf P FO E) (g : StrokeRun σs P SO E)
    (st : SysState σf σs E) (e : ShapeEntity P FO SO)
    (hp : e.processed.fst = true) :
    process_entity f g st e = (st, e, []) := by
  simp [process_entity, hp]

/-- The loop body always leaves the entity's processed flag set: a skipped
entity already had it, an unskipped entity gets it set. -/
lemma process_entity_result_processed (f : FillRun σf P FO E)
    (g : StrokeRun σs P SO E) (st : SysState σf σs E) (e : ShapeEntity P FO SO) :
    (process_entity f g st e).2.1.processed = ⟨true⟩ := by
  rcases hp : e.processed.fst with _ | _
  · rcases hm : e.tess_mode with o | o <;> simp [process_entity, hp, hm]
  · rw [process_entity_skip f g st e hp]
    cases hpr : e.processed
    simp_all

/-- Characterization of the loop body on an unprocessed `Fill`-mode entity:
everything except the diagnostic log. -/
lemma process_entity_fill_char (f : FillRun σf P FO E) (g : StrokeRun σs P SO E)
    (st : SysState σf σs E) (e : ShapeEntity P FO SO) (o : FO)
    (hp : e.processed.fst = false) (hm : e.tess_mode = TessellationMode.Fill o) :
    (process_entity f g st e).1.meshes.store
      = st.meshes.store
        ++ [build_mesh (BuffersBuilder.append_fill VertexBuffers.new (f st.fill_tess e.path o).2)]
    ∧ (process_entity f g st e).1.fill_tess = (f st.fill_tess e.path o).1
    ∧ (process_entity f g st e).1.stroke_tess = st.stroke_tess
    ∧ (process_entity f g st e).2.1
      = { e with mesh := st.meshes.store.length, visible := ⟨true⟩, processed := ⟨true⟩ }
    ∧ (process_entity f g st e).2.2 = [EngineCall.fill e.path o] := by
  refine ⟨?_, ?_, ?_, ?_, ?_⟩ <;> simp [process_entity, hp, hm, Assets.add]

/-- Characterization of the loop body on an unprocessed `Stroke`-mode entity:
everything except the diagnostic log. -/
lemma process_entity_stroke_char (f : FillRun σf P FO E) (g : StrokeRun σs P SO E)
    (st : SysState σf σs E) (e : ShapeEntity P FO SO) (o : SO)
    (hp : e.processed.fst = false) (hm : e.tess_mode = TessellationMode.Stroke o) :
    (process_entity f g st e).1.meshes.store
      = st.meshes.store
        ++ [build_mesh (BuffersBuilder.append_stroke VertexBuffers.new (g st.stroke_tess e.path o).2)]
    ∧ (process_entity f g st e).1.fill_tess = st.fill_tess
    ∧ (process_entity f g st e).1.stroke_tess = (g st.stroke_tess e.path o).1
    ∧ (process_entity f g st e).2.1
      = { e with mesh := st.meshes.store.length, visible := ⟨true⟩, processed := ⟨true⟩ }
    ∧ (process_entity f g st e).2.2 = [EngineCall.stroke e.path o] := by
  refine ⟨?_, ?_, ?_, ?_, ?_⟩ <;> simp [process_entity, hp, hm, Assets.add]

/-- Diagnostic log of the loop body when the fill engine errors. -/
lemma process_entity_fill_log_err (f : FillRun σf P FO E) (g : StrokeRun σs P SO E)
    (st : SysState σf σs E) (e : ShapeEntity P FO SO) (o : FO) (er : E)
    (hp : e.processed.fst = false) (hm : e.tess_mode = TessellationMode.Fill o)
    (he : (f st.fill_tess e.path o).2.err = some er) :
    (process_entity f g st e).1.log = st.log ++ [LogEvent.fillTessellatorError er] := by
  simp [process_entity, hp, hm, he]

/-- Diagnostic log of the loop body when the fill engine succeeds. -/
lemma process_entity_fill_log_ok (f : FillRun σf P FO E) (g : StrokeRun σs P SO E)
    (st : SysState σf σs E) (e : ShapeEntity P FO SO) (o : FO)
    (hp : e.processed.fst = false) (hm : e.tess_mode = TessellationMode.Fill o)
    (he : (f st.fill_tess e.path o).2.err = none) :
    (process_entity f g st e).1.log = st.log := by
  simp [process_entity, hp, hm, he]

/-- Diagnostic log of the loop body when the stroke engine errors. -/
lemma process_entity_stroke_log_err (f : FillRun σf P FO E) (g : StrokeRun σs P SO E)
    (st : SysState σf σs E) (e : ShapeEntity P FO SO) (o : SO) (er : E)
    (hp : e.processed.fst = false) (hm : e.tess_mode = TessellationMode.Stroke o)
    (he : (g st.stroke_tess e.path o).2.err = some er) :
    (process_entity f g st e).1.log = st.log ++ [LogEvent.strokeTessellatorError er] := by
  simp [process_entity, hp, hm, he]

/-- Diagnostic log of the loop body when the stroke engine succeeds. -/
lemma process_entity_stroke_log_ok (f : FillRun σf P FO E) (g : StrokeRun σs P SO E)
    (st : SysState σf σs E) (e : ShapeEntity P FO SO) (o : SO)
    (hp : e.processed.fst = false) (hm : e.tess_mode = TessellationMode.Stroke o)
    (he : (g st.stroke_tess e.path o).2.err = none) :
    (process_entity f g st e).1.log = st.log := by
  simp [process_entity, hp, hm, he]

/-- The loop body on an unprocessed entity, mode-independently: the entity is
completed with the fresh handle, and exactly one mesh is registered. -/
lemma process_entity_unprocessed (f : FillRun σf P FO E) (g : StrokeRun σs P SO E)
    (st : SysState σf σs E) (e : ShapeEntity P FO SO)
    (hp : e.processed.fst = false) :
    (process_entity f g st e).2.1
      = { e with mesh := st.meshes.store.length, visible := ⟨true⟩, processed := ⟨true⟩ }
    ∧ (∃ m, (process_entity f g st e).1.meshes.store = st.meshes.store ++ [m]) := by
  rcases hm : e.tess_mode with o | o
  · rcases process_entity_fill_char f g st e o hp hm with ⟨h1, _, _, h4, _⟩
    exact ⟨by rw [h4, hm], _, h1⟩
  · rcases process_entity_stroke_char f g st e o hp hm with ⟨h1, _, _, h4, _⟩
    exact ⟨by rw [h4, hm], _, h1⟩

/-- The loop body extends the mesh store (never shrinks or edits it). -/
lemma process_entity_store_prefix (f : FillRun σf P FO E) (g : StrokeRun σs P SO E)
    (st : SysState σf σs E) (e : ShapeEntity P FO SO) :
    ∃ tl, (process_entity f g st e).1.meshes.store = st.meshes.store ++ tl := by
  rcases hp : e.processed.fst with _ | _
  · rcases (process_entity_unprocessed f g st e hp).2 with ⟨m, hm⟩
    exact ⟨[m], hm⟩
  · rw [process_entity_skip f g st e hp]
    exact ⟨[], by simp⟩

/-- The loop body extends the diagnostic log (never drops events). -/
lemma process_entity_log_prefix (f : FillRun σf P FO E) (g : StrokeRun σs P SO E)
    (st : SysState σf σs E) (e : ShapeEntity P FO SO) :
    ∃ tl, (process_entity f g st e).1.log = st.log ++ tl := by
  rcases hp : e.processed.fst with _ | _
  · rcases hm : e.tess_mode with o | o
    · rcases he : (f st.fill_tess e.path o).2.err with _ | er
      · exact ⟨[], by rw [process_entity_fill_log_ok f g st e o hp hm he]; simp⟩
      · exact ⟨_, process_entity_fill_log_err f g st e o er hp hm he⟩
    · rcases he : (g st.stroke_tess e.path o).2.err with _ | er
      · exact ⟨[], by rw [process_entity_stroke_log_ok f g st e o hp hm he]; simp⟩
      · exact ⟨_, process_entity_stroke_log_err f g st e o er hp hm he⟩
  · rw [process_entity_skip f g st e hp]
    exact ⟨[], by simp⟩

/-- Unfolding equation for the empty query. -/
lemma complete_shape_bundle_nil (f : FillRun σf P FO E) (g : StrokeRun σs P SO E)
    (st : SysState σf σs E) :
    complete_shape_bundle f g st ([] : List (ShapeEntity P FO SO)) = (st, [], []) := rfl

/-- Unfolding equation for a nonempty query. -/
lemma complete_shape_bundle_cons (f : FillRun σf P FO E) (g : StrokeRun σs P SO E)
    (st : SysState σf σs E) (e : ShapeEntity P FO SO) (es : List (ShapeEntity P FO SO)) :
    complete_shape_bundle f g st (e :: es)
      = ((complete_shape_bundle f g (process_entity f g st e).1 es).1,
         (process_entity f g st e).2.1
           :: (complete_shape_bundle f g (process_entity f g st e).1 es).2.1,
         (process_entity f g st e).2.2
           ++ (complete_shape_bundle f g (process_entity f g st e).1 es).2.2) := rfl

/-- A run of the system touches no entity count: the output entity list is as
long as the query result. -/
lemma pass_length (f : FillRun σf P FO E) (g : StrokeRun σs P SO E)
    (st : SysState σf σs E) (es : List (ShapeEntity P FO SO)) :
    (complete_shape_bundle f g st es).2.1.length = es.length := by
  induction es generalizing st with
  | nil => rfl
  | cons e es ih => simp [complete_shape_bundle_cons, ih]

/-- After a run of the system, every output entity carries a set processed
flag. -/
lemma pass_all_processed (f : FillRun σf P FO E) (g : StrokeRun σs P SO E)
    (st : SysState σf σs E) (es : List (ShapeEntity P FO SO)) :
    ∀ e' ∈ (complete_shape_bundle f g st es).2.1, e'.processed = ⟨true⟩ := by
  induction es generalizing st with
  | nil => intro e' h; simp [complete_shape_bundle_nil] at h
  | cons e es ih =>
    intro e' h
    rw [complete_shape_bundle_cons] at h
    rcases List.mem_cons.mp h with h | h
    · rw [h]; exact process_entity_result_processed f g st e
    · exact ih _ e' h

/-- A run over entities whose processed flags are all set is a no-op: no
resource change, no entity change, no engine call. -/
lemma pass_noop (f : FillRun σf P FO E) (g : StrokeRun σs P SO E)
    (st : SysState σf σs E) (es : List (ShapeEntity P FO SO))
    (h : ∀ e ∈ es, e.processed = (⟨true⟩ : Processed)) :
    complete_shape_bundle f g st es = (st, es, []) := by
  induction es generalizing st with
  | nil => rfl
  | cons e es ih =>
    have he : e.processed.fst = true := by rw [h e (List.mem_cons_self e es)]
    rw [complete_shape_bundle_cons, process_entity_skip f g st e he,
      ih st fun x hx => h x (List.mem_cons_of_mem e hx)]
    rfl

/-- A run only appends to the mesh store. -/
lemma pass_store_prefix (f : FillRun σf P FO E) (g : StrokeRun σs P SO E)
    (st : SysState σf σs E) (es : List (ShapeEntity P FO SO)) :
    ∃ tl, (complete_shape_bundle f g st es).1.meshes.store = st.meshes.store ++ tl := by
  induction es generalizing st with
  | nil => exact ⟨[], by simp [complete_shape_bundle_nil]⟩
  | cons e es ih =>
    rcases process_entity_store_prefix f g st e with ⟨tl₁, h₁⟩
    rcases ih (process_entity f g st e).1 with ⟨tl₂, h₂⟩
    exact ⟨tl₁ ++ tl₂, by rw [complete_shape_bundle_cons, h₂, h₁, List.append_assoc]⟩

/-- A run never shrinks the mesh store. -/
lemma pass_store_len_le (f : FillRun σf P FO E) (g : StrokeRun σs P SO E)
    (st : SysState σf σs E) (es : List (ShapeEntity P FO SO)) :
    st.meshes.store.length ≤ (complete_shape_bundle f g st es).1.meshes.store.length := by
  rcases pass_store_prefix f g st es with ⟨tl, h⟩
  rw [h]; simp

/-- A run only appends to the diagnostic log. -/
lemma pass_log_prefix (f : FillRun σf P FO E) (g : StrokeRun σs P SO E)
    (st : SysState σf σs E) (es : List (ShapeEntity P FO SO)) :
    ∃ tl, (complete_shape_bundle f g st es).1.log = st.log ++ tl := by
  induction es generalizing st with
  | nil => exact ⟨[], by simp [complete_shape_bundle_nil]⟩
  | cons e es ih =>
    rcases process_entity_log_prefix f g st e with ⟨tl₁, h₁⟩
    rcases ih (process_entity f g st e).1 with ⟨tl₂, h₂⟩
    exact ⟨tl₁ ++ tl₂, by rw [complete_shape_bundle_cons, h₂, h₁, List.append_assoc]⟩

/-- C2: for every tessellated point `P`, the vertex constructor produces
exactly one `Vertex` with position `(P.x, P.y, 0)`, normal `(0, 0, 1)` and
uv `(0, 0)`, and the fill-path constructor and the stroke-path constructor
applied to the same point yield structurally identical vertices. -/
theorem vertex_constructor_contract (p : Point2) :
    FillVertexConstructor.new_vertex ⟨p⟩
      = { position := (p.x, p.y, 0), normal := (0, 0, 1), uv := (0, 0) }
    ∧ StrokeVertexConstructor.new_vertex ⟨p⟩
      = { position := (p.x, p.y, 0), normal := (0, 0, 1), uv := (0, 0) }
    ∧ FillVertexConstructor.new_vertex ⟨p⟩ = StrokeVertexConstructor.new_vertex ⟨p⟩ :=
  ⟨rfl, rfl, rfl⟩

/-- C5: `build_mesh` is a pure total function: every `VertexBuffers` value
(including empty buffers) yields a mesh with triangle-list topology, the
input index sequence copied verbatim, and three parallel attribute arrays of
length equal to the vertex count whose i-th entries are the i-th input
vertex's position, normal and uv fields. -/
theorem build_mesh_contract (b : VertexBuffers) :
    (build_mesh b).primitive_topology = PrimitiveTopology.TriangleList
    ∧ (build_mesh b).indices = some (Indices.U32 b.indices)
    ∧ (build_mesh b).attribute_position.length = b.vertices.length
    ∧ (build_mesh b).attribute_normal.length = b.vertices.length
    ∧ (build_mesh b).attribute_uv.length = b.vertices.length
    ∧ (∀ i : ℕ, (build_mesh b).attribute_position[i]? = (b.vertices[i]?).map Vertex.position)
    ∧ (∀ i : ℕ, (build_mesh b).attribute_normal[i]? = (b.vertices[i]?).map Vertex.normal)
    ∧ (∀ i : ℕ, (build_mesh b).attribute_uv[i]? = (b.vertices[i]?).map Vertex.uv) := by
  refine ⟨rfl, rfl, ?_, ?_, ?_, ?_, ?_, ?_⟩ <;> simp [build_mesh]

/-- C1 counterexample: with a fill engine that errors (code 7), the loop body
does NOT leave the entity untouched: the error is logged, yet the entity's
processed flag becomes true, it becomes visible, its mesh-handle field is
overwritten with the fresh handle 0 (it was 99), and a mesh built from the
empty buffers is registered. -/
theorem error_leaves_entity_untouched_cex :
    process_entity failingFillRun okStrokeRun st0 fillEntity
      = (⟨⟨[build_mesh VertexBuffers.new]⟩, 0, 0, [LogEvent.fillTessellatorError 7]⟩,
         ⟨TessellationMode.Fill 0, 5, 0, ⟨true⟩, ⟨true⟩⟩,
         [EngineCall.fill 5 0]) := by
  decide

/-- C1 amended: for every entity whose tessellation call returns an error,
the dispatch step logs the error identifying the engine kind, but still
completes the entity in the same pass: it registers a mesh built from the
buffers as emitted up to the error (possibly empty), writes the fresh handle
into the entity's mesh-handle field, sets its visibility flag to true, and
sets its processed flag to true. -/
theorem error_entity_completed_anyway (f : FillRun σf P FO E) (g : StrokeRun σs P SO E)
    (st : SysState σf σs E) (e : ShapeEntity P FO SO)
    (hp : e.processed.fst = false) :
    (∀ o er, e.tess_mode = TessellationMode.Fill o →
      (f st.fill_tess e.path o).2.err = some er →
      (process_entity f g st e).2.1
        = { e with mesh := st.meshes.store.length, visible := ⟨true⟩, processed := ⟨true⟩ }
      ∧ (process_entity f g st e).1.meshes.store
        = st.meshes.store
          ++ [build_mesh (BuffersBuilder.append_fill VertexBuffers.new (f st.fill_tess e.path o).2)]
      ∧ (process_entity f g st e).1.log = st.log ++ [LogEvent.fillTessellatorError er])
    ∧ (∀ o er, e.tess_mode = TessellationMode.Stroke o →
      (g st.stroke_tess e.path o).2.err = some er →
      (process_entity f g st e).2.1
        = { e with mesh := st.meshes.store.length, visible := ⟨true⟩, processed := ⟨true⟩ }
      ∧ (process_entity f g st e).1.meshes.store
        = st.meshes.store
          ++ [build_mesh (BuffersBuilder.append_stroke VertexBuffers.new (g st.stroke_tess e.path o).2)]
      ∧ (process_entity f g st e).1.log = st.log ++ [LogEvent.strokeTessellatorError er]) := by
  constructor
  · intro o er hm he
    rcases process_entity_fill_char f g st e o hp hm with ⟨h1, _, _, h4, _⟩
    exact ⟨h4, h1, process_entity_fill_log_err f g st e o er hp hm he⟩
  · intro o er hm he
    rcases process_entity_stroke_char f g st e o hp hm with ⟨h1, _, _, h4, _⟩
    exact ⟨h4, h1, process_entity_stroke_log_err f g st e o er hp hm he⟩

/-- Witness for the amended C1 theorem at the concrete failing fill engine. -/
theorem error_entity_completed_anyway_witness :
    fillEntity.processed.fst = false
    ∧ fillEntity.tess_mode = TessellationMode.Fill 0
    ∧ ((failingFillRun st0.fill_tess fillEntity.path 0).2.err = some 7)
    ∧ ((process_entity failingFillRun okStrokeRun st0 fillEntity).2.1
        = { fillEntity with mesh := st0.meshes.store.length, visible := ⟨true⟩, processed := ⟨true⟩ }
      ∧ (process_entity failingFillRun okStrokeRun st0 fillEntity).1.meshes.store
        = st0.meshes.store
          ++ [build_mesh (BuffersBuilder.append_fill VertexBuffers.new
                (failingFillRun st0.fill_tess fillEntity.path 0).2)]
      ∧ (process_entity failingFillRun okStrokeRun st0 fillEntity).1.log
        = st0.log ++ [LogEvent.fillTessellatorError 7]) :=
  ⟨rfl, rfl, rfl,
    (error_entity_completed_anyway failingFillRun okStrokeRun st0 fillEntity rfl).1 0 7 rfl rfl⟩

/-- C4: for every entity whose tessellation call succeeds, the dispatch step
builds a mesh from the returned buffers, registers it in the shared store,
writes the resulting fresh handle into the entity's mesh-handle field, sets
its visibility flag to true and sets its processed flag to true. -/
theorem success_entity_completed (f : FillRun σf P FO E) (g : StrokeRun σs P SO E)
    (st : SysState σf σs E) (e : ShapeEntity P FO SO)
    (hp : e.processed.fst = false) :
    (∀ o, e.tess_mode = TessellationMode.Fill o →
      (f st.fill_tess e.path o).2.err = none →
      (process_entity f g st e).2.1
        = { e with mesh := st.meshes.store.length, visible := ⟨true⟩, processed := ⟨true⟩ }
      ∧ (process_entity f g st e).1.meshes.store
        = st.meshes.store
          ++ [build_mesh (BuffersBuilder.append_fill VertexBuffers.new (f st.fill_tess e.path o).2)])
    ∧ (∀ o, e.tess_mode = TessellationMode.Stroke o →
      (g st.stroke_tess e.path o).2.err = none →
      (process_entity f g st e).2.1
        = { e with mesh := st.meshes.store.length, visible := ⟨true⟩, processed := ⟨true⟩ }
      ∧ (process_entity f g st e).1.meshes.store
        = st.meshes.store
          ++ [build_mesh (BuffersBuilder.append_stroke VertexBuffers.new (g st.stroke_tess e.path o).2)]) := by
  constructor
  · intro o hm _
    rcases process_entity_fill_char f g st e o hp hm with ⟨h1, _, _, h4, _⟩
    exact ⟨h4, h1⟩
  · intro o hm _
    rcases process_entity_stroke_char f g st e o hp hm with ⟨h1, _, _, h4, _⟩
    exact ⟨h4, h1⟩

/-- Witness for the C4 theorem at the concrete succeeding stroke engine. -/
theorem success_entity_completed_witness :
    strokeEntity.processed.fst = false
    ∧ strokeEntity.tess_mode = TessellationMode.Stroke 2
    ∧ (okStrokeRun st0.stroke_tess strokeEntity.path 2).2.err = none
    ∧ ((process_entity okFillRun okStrokeRun st0 strokeEntity).2.1
        = { strokeEntity with
            mesh := st0.meshes.store.length, visible := ⟨true⟩, processed := ⟨true⟩ }
      ∧ (process_entity okFillRun okStrokeRun st0 strokeEntity).1.meshes.store
        = st0.meshes.store
          ++ [build_mesh (BuffersBuilder.append_stroke VertexBuffers.new
                (okStrokeRun st0.stroke_tess strokeEntity.path 2).2)]) :=
  ⟨rfl, rfl, rfl,
    (success_entity_completed okFillRun okStrokeRun st0 strokeEntity rfl).2 2 rfl rfl⟩

/-- C6: for every unprocessed entity the dispatch routes on the mode tag: a
`Fill(options)` entity invokes only the fill engine and a `Stroke(options)`
entity invokes only the stroke engine, in each case passing the entity's
path and the mode's options (the shared `VertexConstructor` is applied to
the engine's points inside the buffers builder). -/
theorem mode_routing (f : FillRun σf P FO E) (g : StrokeRun σs P SO E)
    (st : SysState σf σs E) (e : ShapeEntity P FO SO)
    (hp : e.processed.fst = false) :
    (∀ o, e.tess_mode = TessellationMode.Fill o →
      (process_entity f g st e).2.2 = [EngineCall.fill e.path o]
      ∧ (process_entity f g st e).1.stroke_tess = st.stroke_tess)
    ∧ (∀ o, e.tess_mode = TessellationMode.Stroke o →
      (process_entity f g st e).2.2 = [EngineCall.stroke e.path o]
      ∧ (process_entity f g st e).1.fill_tess = st.fill_tess) := by
  constructor
  · intro o hm
    rcases process_entity_fill_char f g st e o hp hm with ⟨_, _, h3, _, h5⟩
    exact ⟨h5, h3⟩
  · intro o hm
    rcases process_entity_stroke_char f g st e o hp hm with ⟨_, h2, _, _, h5⟩
    exact ⟨h5, h2⟩

/-- Witness for the C6 theorem at the concrete fill-mode entity. -/
theorem mode_routing_witness :
    fillEntity.processed.fst = false
    ∧ fillEntity.tess_mode = TessellationMode.Fill 0
    ∧ ((process_entity okFillRun okStrokeRun st0 fillEntity).2.2
        = [EngineCall.fill fillEntity.path 0]
      ∧ (process_entity okFillRun okStrokeRun st0 fillEntity).1.stroke_tess
        = st0.stroke_tess) :=
  ⟨rfl, rfl, (mode_routing okFillRun okStrokeRun st0 fillEntity rfl).1 0 rfl⟩

/-- C9: each tessellation call starts from `VertexBuffers::new()`, so the
buffer handed to `build_mesh` holds exactly this call's constructed vertices
and this call's raw indices (offset by the empty buffer's vertex count 0 —
no carryover from any previous entity), and under the engine guarantee
(modelled from the spec: "indices reference only positions within this
call's vertex sequence") every resulting index is below the resulting vertex
count. -/
theorem fresh_buffers_per_call (f : FillRun σf P FO E) (g : StrokeRun σs P SO E)
    (st : SysState σf σs E) (e : ShapeEntity P FO SO)
    (hp : e.processed.fst = false) :
    (∀ o, e.tess_mode = TessellationMode.Fill o →
      BuffersBuilder.append_fill VertexBuffers.new (f st.fill_tess e.path o).2
        = ⟨(f st.fill_tess e.path o).2.points.map FillVertexConstructor.new_vertex,
           (f st.fill_tess e.path o).2.raw_indices⟩
      ∧ ((∀ j ∈ (f st.fill_tess e.path o).2.raw_indices,
            j < (f st.fill_tess e.path o).2.points.length) →
          ∀ j ∈ (BuffersBuilder.append_fill VertexBuffers.new (f st.fill_tess e.path o).2).indices,
            j < (BuffersBuilder.append_fill VertexBuffers.new
                   (f st.fill_tess e.path o).2).vertices.length)
      ∧ (process_entity f g st e).1.meshes.store
        = st.meshes.store
          ++ [build_mesh (BuffersBuilder.append_fill VertexBuffers.new (f st.fill_tess e.path o).2)])
    ∧ (∀ o, e.tess_mode = TessellationMode.Stroke o →
      BuffersBuilder.append_stroke VertexBuffers.new (g st.stroke_tess e.path o).2
        = ⟨(g st.stroke_tess e.path o).2.points.map StrokeVertexConstructor.new_vertex,
           (g st.stroke_tess e.path o).2.raw_indices⟩
      ∧ ((∀ j ∈ (g st.stroke_tess e.path o).2.raw_indices,
            j < (g st.stroke_tess e.path o).2.points.length) →
          ∀ j ∈ (BuffersBuilder.append_stroke VertexBuffers.new (g st.stroke_tess e.path o).2).indices,
            j < (BuffersBuilder.append_stroke VertexBuffers.new
                   (g st.stroke_tess e.path o).2).vertices.length)
      ∧ (process_entity f g st e).1.meshes.store
        = st.meshes.store
          ++ [build_mesh (BuffersBuilder.append_stroke VertexBuffers.new (g st.stroke_tess e.path o).2)]) := by
  constructor
  · intro o hm
    have hfresh : BuffersBuilder.append_fill VertexBuffers.new (f st.fill_tess e.path o).2
        = ⟨(f st.fill_tess e.path o).2.points.map FillVertexConstructor.new_vertex,
           (f st.fill_tess e.path o).2.raw_indices⟩ := by
      simp [BuffersBuilder.append_fill, VertexBuffers.new]
    refine ⟨hfresh, ?_, (process_entity_fill_char f g st e o hp hm).1⟩
    intro hvalid j hj
    rw [hfresh] at hj ⊢
    simpa using hvalid j (by simpa using hj)
  · intro o hm
    have hfresh : BuffersBuilder.append_stroke VertexBuffers.new (g st.stroke_tess e.path o).2
        = ⟨(g st.stroke_tess e.path o).2.points.map StrokeVertexConstructor.new_vertex,
           (g st.stroke_tess e.path o).2.raw_indices⟩ := by
      simp [BuffersBuilder.append_stroke, VertexBuffers.new]
    refine ⟨hfresh, ?_, (process_entity_stroke_char f g st e o hp hm).1⟩
    intro hvalid j hj
    rw [hfresh] at hj ⊢
    simpa using hvalid j (by simpa using hj)

/-- Witness for the C9 theorem at the concrete succeeding fill engine. -/
theorem fresh_buffers_per_call_witness :
    fillEntity.processed.fst = false
    ∧ fillEntity.tess_mode = TessellationMode.Fill 0
    ∧ (∀ j ∈ (okFillRun st0.fill_tess fillEntity.path 0).2.raw_indices,
        j < (okFillRun st0.fill_tess fillEntity.path 0).2.points.length)
    ∧ BuffersBuilder.append_fill VertexBuffers.new (okFillRun st0.fill_tess fillEntity.path 0).2
        = ⟨(okFillRun st0.fill_tess fillEntity.path 0).2.points.map FillVertexConstructor.new_vertex,
           (okFillRun st0.fill_tess fillEntity.path 0).2.raw_indices⟩
    ∧ (∀ j ∈ (BuffersBuilder.append_fill VertexBuffers.new
          (okFillRun st0.fill_tess fillEntity.path 0).2).indices,
        j < (BuffersBuilder.append_fill VertexBuffers.new
          (okFillRun st0.fill_tess fillEntity.path 0).2).vertices.length)
    ∧ (process_entity okFillRun okStrokeRun st0 fillEntity).1.meshes.store
      = st0.meshes.store
        ++ [build_mesh (BuffersBuilder.append_fill VertexBuffers.new
              (okFillRun st0.fill_tess fillEntity.path 0).2)] :=
  ⟨rfl, rfl, by decide,
   ((fresh_buffers_per_call okFillRun okStrokeRun st0 fillEntity rfl).1 0 rfl).1,
   ((fresh_buffers_per_call okFillRun okStrokeRun st0 fillEntity rfl).1 0 rfl).2.1 (by decide),
   ((fresh_buffers_per_call okFillRun okStrokeRun st0 fillEntity rfl).1 0 rfl).2.2⟩

/-- C3: the processed flag guards idempotence: an entity whose flag is set is
skipped entirely (no engine call, no resource change, no entity change), and
running the system a second time over the first run's output, with no
external reset, is a no-op (no entity or resource change, no engine call at
all). -/
theorem dispatch_idempotent (f : FillRun σf P FO E) (g : StrokeRun σs P SO E) :
    (∀ (st : SysState σf σs E) (e : ShapeEntity P FO SO), e.processed.fst = true →
      process_entity f g st e = (st, e, []))
    ∧ (∀ (st : SysState σf σs E) (es : List (ShapeEntity P FO SO)),
      complete_shape_bundle f g (complete_shape_bundle f g st es).1
          (complete_shape_bundle f g st es).2.1
        = ((complete_shape_bundle f g st es).1, (complete_shape_bundle f g st es).2.1, [])) :=
  ⟨process_entity_skip f g,
   fun st es =>
     pass_noop f g (complete_shape_bundle f g st es).1
       (complete_shape_bundle f g st es).2.1 (pass_all_processed f g st es)⟩

/-- Witness for the C3 theorem: a processed entity is skipped, and a second
concrete run over a first run's output is a no-op. -/
theorem dispatch_idempotent_witness :
    doneEntity.processed.fst = true
    ∧ process_entity okFillRun okStrokeRun st0 doneEntity = (st0, doneEntity, [])
    ∧ complete_shape_bundle okFillRun okStrokeRun
        (complete_shape_bundle okFillRun okStrokeRun st0 [fillEntity, doneEntity]).1
        (complete_shape_bundle okFillRun okStrokeRun st0 [fillEntity, doneEntity]).2.1
      = ((complete_shape_bundle okFillRun okStrokeRun st0 [fillEntity, doneEntity]).1,
         (complete_shape_bundle okFillRun okStrokeRun st0 [fillEntity, doneEntity]).2.1, []) :=
  ⟨rfl, (dispatch_idempotent okFillRun okStrokeRun).1 st0 doneEntity rfl,
   (dispatch_idempotent okFillRun okStrokeRun).2 st0 [fillEntity, doneEntity]⟩

/-- C7: a tessellation error for one entity is caught at the dispatch
boundary: the pass is not aborted (the output covers all queried entities
and every entity still ends processed), and the error is surfaced on the
diagnostic channel through an event that identifies the failing engine kind
(fill or stroke). -/
theorem error_isolated_per_entity (f : FillRun σf P FO E) (g : StrokeRun σs P SO E)
    (st : SysState σf σs E) (e : ShapeEntity P FO SO) (es : List (ShapeEntity P FO SO))
    (hp : e.processed.fst = false) :
    (complete_shape_bundle f g st (e :: es)).2.1.length = es.length + 1
    ∧ (∀ e' ∈ (complete_shape_bundle f g st (e :: es)).2.1, e'.processed = ⟨true⟩)
    ∧ (∀ o er, e.tess_mode = TessellationMode.Fill o →
        (f st.fill_tess e.path o).2.err = some er →
        LogEvent.fillTessellatorError er ∈ (complete_shape_bundle f g st (e :: es)).1.log)
    ∧ (∀ o er, e.tess_mode = TessellationMode.Stroke o →
        (g st.stroke_tess e.path o).2.err = some er →
        LogEvent.strokeTessellatorError er ∈ (complete_shape_bundle f g st (e :: es)).1.log) := by
  refine ⟨pass_length f g st (e :: es), pass_all_processed f g st (e :: es), ?_, ?_⟩
  · intro o er hm he
    rcases pass_log_prefix f g (process_entity f g st e).1 es with ⟨tl, hlog⟩
    rw [complete_shape_bundle_cons]
    show LogEvent.fillTessellatorError er
      ∈ (complete_shape_bundle f g (process_entity f g st e).1 es).1.log
    rw [hlog, process_entity_fill_log_err f g st e o er hp hm he]
    simp
  · intro o er hm he
    rcases pass_log_prefix f g (process_entity f g st e).1 es with ⟨tl, hlog⟩
    rw [complete_shape_bundle_cons]
    show LogEvent.strokeTessellatorError er
      ∈ (complete_shape_bundle f g (process_entity f g st e).1 es).1.log
    rw [hlog, process_entity_stroke_log_err f g st e o er hp hm he]
    simp

/-- Witness for the C7 theorem: a failing stroke entity followed by a
succeeding fill entity; both end processed, the stroke error is logged. -/
theorem error_isolated_per_entity_witness :
    strokeEntity.processed.fst = false
    ∧ (complete_shape_bundle okFillRun failingStrokeRun st0
        (strokeEntity :: [fillEntity])).2.1.length = 2
    ∧ (∀ e' ∈ (complete_shape_bundle okFillRun failingStrokeRun st0
        (strokeEntity :: [fillEntity])).2.1, e'.processed = ⟨true⟩)
    ∧ strokeEntity.tess_mode = TessellationMode.Stroke 2
    ∧ (failingStrokeRun st0.stroke_tess strokeEntity.path 2).2.err = some 9
    ∧ LogEvent.strokeTessellatorError 9
      ∈ (complete_shape_bundle okFillRun failingStrokeRun st0
          (strokeEntity :: [fillEntity])).1.log :=
  ⟨rfl,
   (error_isolated_per_entity okFillRun failingStrokeRun st0 strokeEntity [fillEntity] rfl).1,
   (error_isolated_per_entity okFillRun failingStrokeRun st0 strokeEntity [fillEntity] rfl).2.1,
   rfl, rfl,
   (error_isolated_per_entity okFillRun failingStrokeRun st0 strokeEntity [fillEntity] rfl).2.2.2
     2 9 rfl rfl⟩

/-- C8: the processed flag is monotone under this core: an entity whose flag
is set is left untouched with no engine call (never reset, at-most-once
guard), the loop body always leaves the flag set (an unprocessed entity
transitions false to true), and after any run every output entity's flag is
set. -/
theorem processed_flag_monotone (f : FillRun σf P FO E) (g : StrokeRun σs P SO E) :
    (∀ (st : SysState σf σs E) (e : ShapeEntity P FO SO), e.processed.fst = true →
      process_entity f g st e = (st, e, []))
    ∧ (∀ (st : SysState σf σs E) (e : ShapeEntity P FO SO),
      (process_entity f g st e).2.1.processed = ⟨true⟩)
    ∧ (∀ (st : SysState σf σs E) (es : List (ShapeEntity P FO SO)),
      ∀ e' ∈ (complete_shape_bundle f g st es).2.1, e'.processed = ⟨true⟩) :=
  ⟨process_entity_skip f g, process_entity_result_processed f g, pass_all_processed f g⟩

/-- Witness for the C8 theorem at concrete entities. -/
theorem processed_flag_monotone_witness :
    doneEntity.processed.fst = true
    ∧ process_entity okFillRun okStrokeRun st0 doneEntity = (st0, doneEntity, [])
    ∧ (process_entity okFillRun okStrokeRun st0 fillEntity).2.1.processed = ⟨true⟩
    ∧ doneEntity ∈ (complete_shape_bundle okFillRun okStrokeRun st0 [doneEntity]).2.1
    ∧ doneEntity.processed = ⟨true⟩ :=
  ⟨rfl, (processed_flag_monotone okFillRun okStrokeRun).1 st0 doneEntity rfl,
   (processed_flag_monotone okFillRun okStrokeRun).2.1 st0 fillEntity,
   by decide,
   (processed_flag_monotone okFillRun okStrokeRun).2.2 st0 [doneEntity] doneEntity (by decide)⟩

/-- C10: after a single run over entities spawned in the initial state
(processed flag false, per the component contract), every matched entity
ends with its processed flag set, its visibility set, and its mesh-handle
field pointing at a mesh newly registered during this run (its handle lies
between the store length before the run and the store length after it) —
regardless of whether its tessellation call succeeded or errored. -/
theorem pass_completes_all_entities (f : FillRun σf P FO E) (g : StrokeRun σs P SO E)
    (st : SysState σf σs E) (es : List (ShapeEntity P FO SO))
    (hp : ∀ e ∈ es, e.processed.fst = false) :
    ∀ (i : ℕ) (e' : ShapeEntity P FO SO),
      (complete_shape_bundle f g st es).2.1[i]? = some e' →
      e'.processed = ⟨true⟩ ∧ e'.visible = ⟨true⟩
      ∧ st.meshes.store.length ≤ e'.mesh
      ∧ e'.mesh < (complete_shape_bundle f g st es).1.meshes.store.length := by
  induction es generalizing st with
  | nil =>
    intro i e' h
    rw [complete_shape_bundle_nil] at h
    simp at h
  | cons e es ih =>
    intro i e' h
    rw [complete_shape_bundle_cons] at h ⊢
    simp only at h ⊢
    have hpe : e.processed.fst = false := hp e (List.mem_cons_self e es)
    rcases process_entity_unprocessed f g st e hpe with ⟨hent, m, hstore⟩
    have hlen : (process_entity f g st e).1.meshes.store.length
        = st.meshes.store.length + 1 := by rw [hstore]; simp
    match i with
    | 0 =>
      simp only [List.getElem?_cons_zero, Option.some.injEq] at h
      subst h
      rw [hent]
      refine ⟨rfl, rfl, le_refl _, ?_⟩
      show st.meshes.store.length < _
      have := pass_store_len_le f g (process_entity f g st e).1 es
      omega
    | Nat.succ i =>
      simp only [List.getElem?_cons_succ] at h
      rcases ih (process_entity f g st e).1
          (fun x hx => hp x (List.mem_cons_of_mem e hx)) i e' h with ⟨h1, h2, h3, h4⟩
      refine ⟨h1, h2, ?_, h4⟩
      omega

/-- Witness for the C10 theorem: two freshly spawned entities; the second
output entity is completed with the newly registered handle 1. -/
theorem pass_completes_all_entities_witness :
    (∀ e ∈ [fillEntity, strokeEntity], e.processed.fst = false)
    ∧ (complete_shape_bundle okFillRun okStrokeRun st0 [fillEntity, strokeEntity]).2.1[1]?
      = some ⟨TessellationMode.Stroke 2, 6, 1, ⟨true⟩, ⟨true⟩⟩
    ∧ ((⟨TessellationMode.Stroke 2, 6, 1, ⟨true⟩, ⟨true⟩⟩ : ShapeEntity ℕ ℕ ℕ).processed = ⟨true⟩
      ∧ (⟨TessellationMode.Stroke 2, 6, 1, ⟨true⟩, ⟨true⟩⟩ : ShapeEntity ℕ ℕ ℕ).visible = ⟨true⟩
      ∧ st0.meshes.store.length
        ≤ (⟨TessellationMode.Stroke 2, 6, 1, ⟨true⟩, ⟨true⟩⟩ : ShapeEntity ℕ ℕ ℕ).mesh
      ∧ (⟨TessellationMode.Stroke 2, 6, 1, ⟨true⟩, ⟨true⟩⟩ : ShapeEntity ℕ ℕ ℕ).mesh
        < (complete_shape_bundle okFillRun okStrokeRun st0
            [fillEntity, strokeEntity]).1.meshes.store.length) :=
  ⟨by decide, by decide,
   pass_completes_all_entities okFillRun okStrokeRun st0 [fillEntity, strokeEntity]
     (by decide) 1 ⟨TessellationMode.Stroke 2, 6, 1, ⟨true⟩, ⟨true⟩⟩ (by decide)⟩
